import Mathlib

/-!
Shallow embedding of `agent/executers/executers.go` from the
amazon-ssm-agent repository: the shell command executor
(`ExecuteCommand`, `Execute`, `StartCommand`, `StartExe`,
`CreateScriptFile`, `prepareEnvironment`).

The Go functions are modelled as pure Lean functions over an explicit
environment record capturing the outcomes of the OS interactions
(process start success, the result of `command.Wait()`, the state of the
cancel flag and of the timeout timer when they are polled, file-system
events).  Concurrency is collapsed into the values those interactions
yield at the program points where the Go code reads them, which is
sound for the exit-code and error-set dataflow verified here because
each such value is read exactly once.
-/

namespace Executers

/-- Modelled from the spec: `appconfig.CommandStoppedPreemptivelyExitCode`
(package `agent/appconfig`, which is not under `src/`) — the reserved
"stopped preemptively" sentinel exit code substituted on cancellation or
timeout.  The spec fixes no numeric value, only that it is a reserved
sentinel; the concrete value below stands for that reserved value. -/
def CommandStoppedPreemptivelyExitCode : Int := 137

/-- The shape of a non-nil error returned by `command.Wait()` in
`ExecuteCommand` (executers.go:252-259):
`exitStatus s` is an `*exec.ExitError` whose `Sys()` is a
`syscall.WaitStatus` with `ExitStatus() = s`; `exitNoStatus` is an
`*exec.ExitError` whose `Sys()` is not a `WaitStatus`; `other` is any
other error. -/
inductive WaitErr where
  | exitStatus (s : Int)
  | exitNoStatus
  | other
deriving DecidableEq, Repr

/-- Errors surfaced by the executor, for the returned error values/sets. -/
inductive ExecErr where
  /-- `command.Start()` failed (executers.go:240). -/
  | launch
  /-- `command.Wait()` returned a non-nil error (executers.go:252). -/
  | waitFailed (w : WaitErr)
  /-- Read-back of an output file failed (`os.Open`, executers.go:120/131). -/
  | readBack (stderrStream : Bool)
deriving DecidableEq, Repr

/-- Environment of one `ExecuteCommand` run: the outcome of each OS
interaction at the program point where the Go code observes it.
`startFails` — whether `command.Start()` errors (executers.go:240);
`waitErr` — the error from `command.Wait()` (executers.go:252), `none`
for a nil error; `canceled` — the value of `cancelFlag.Canceled()` when
polled at executers.go:270/287; `timedOut` — `!timer.Stop()` at
executers.go:253, i.e. whether the timer had already fired;
`interrupted` — `signal.execInterruptedOnWindows` when read at
executers.go:262, set by the platform `killProcess`. -/
structure CmdEnv where
  startFails : Bool
  waitErr : Option WaitErr
  canceled : Bool
  timedOut : Bool
  interrupted : Bool
deriving DecidableEq, Repr

/-- Result of `ExecuteCommand`: the returned `(exitCode, err)` pair,
plus ghost observability fields recording whether the cancellation
observer goroutine (`killProcessOnCancel`, executers.go:248) and the
timeout observer goroutine (`killProcessOnTimeout`, executers.go:250)
were started. -/
structure CmdResult where
  exitCode : Int
  err : Option ExecErr
  cancelObserverStarted : Bool
  timeoutObserverStarted : Bool
deriving DecidableEq, Repr

/-- executers.go:260-265 — the raw `status.ExitStatus()` is taken as the
exit code, then overridden to `-1` when `signal.execInterruptedOnWindows`
is set. -/
def normalizeInterrupted (s : Int) (interrupted : Bool) : Int :=
  if interrupted then -1 else s

/-- executers.go:267-281 — when the normalized exit code is `-1`,
substitute the preemptive-stop sentinel if the cancel flag is signaled,
else if the timer had fired; any other code passes through. -/
def resolveMinusOne (e : Int) (canceled timedOut : Bool) : Int :=
  if e = -1 then
    if canceled then CommandStoppedPreemptivelyExitCode
    else if timedOut then CommandStoppedPreemptivelyExitCode
    else -1
  else e

/-- executers.go:254-283 — exit code computed from a non-nil wait error:
`1` unless the error is an `*exec.ExitError` carrying a `WaitStatus`,
in which case the status is normalized. -/
def waitErrExitCode (w : WaitErr) (interrupted canceled timedOut : Bool) : Int :=
  match w with
  | .exitStatus s => resolveMinusOne (normalizeInterrupted s interrupted) canceled timedOut
  | .exitNoStatus => 1
  | .other => 1

/-- `ExecuteCommand` (executers.go:215-300).  Launches the process
(`command.Start()`); on launch failure returns exit code 1 and the
launch error with no observers started.  Otherwise starts the
cancellation and timeout observers, waits, and computes the exit code:
0 and no error when `Wait` succeeds (the kill-attempt-failure branch at
executers.go:287-295 only logs), else the normalized code from the wait
error, which is also returned. -/
def executeCommand (env : CmdEnv) : CmdResult :=
  if env.startFails then
    { exitCode := 1, err := some .launch
      cancelObserverStarted := false, timeoutObserverStarted := false }
  else
    match env.waitErr with
    | none =>
        { exitCode := 0, err := none
          cancelObserverStarted := true, timeoutObserverStarted := true }
    | some w =>
        { exitCode := waitErrExitCode w env.interrupted env.canceled env.timedOut
          err := some (.waitFailed w)
          cancelObserverStarted := true, timeoutObserverStarted := true }

/-- An `io.Reader` as returned by `Execute`: the Go nil interface value
(left when read-back failed or on the early sink-setup return), a
`bytes.Reader` over an in-memory buffer's accumulated bytes
(executers.go:126/137), or an opened output file with its content
(executers.go:120/131).  Bytes are modelled as `List Nat`. -/
inductive Reader where
  | nilReader
  | bytesReader (bs : List Nat)
  | fileReader (bs : List Nat)
deriving DecidableEq, Repr

/-- Modelled from the spec: `fileutil.Exists` (package `agent/fileutil`,
not under `src/`) reports whether a file exists at the given path; the
empty path names no file, so it reports false there.  For a non-empty
path the answer is supplied by the environment (`existsAfter`). -/
def fileutilExists (path : String) (existsAfter : Bool) : Bool :=
  if path = "" then false else existsAfter

/-- Environment of one `Execute` call: the `ExecuteCommand` environment
plus the file-system outcomes.  `stdoutOpenFails`/`stderrOpenFails` —
whether `os.OpenFile` at executers.go:79/96 errors (consulted only when
the corresponding path is non-empty); `stdoutPre`/`stderrPre` — the
pre-existing content of the output file when opened in append mode;
`childStdout`/`childStderr` — the bytes the child process writes to
each stream if it is started (possibly partial output up to a kill);
`stdoutExistsAfter`/`stderrExistsAfter` — whether the file exists at
read-back time (executers.go:119/130); `stdoutReadFails`/
`stderrReadFails` — whether `os.Open` at read-back errors. -/
structure ExecuteEnv where
  cmd : CmdEnv
  stdoutFilePath : String
  stderrFilePath : String
  stdoutOpenFails : Bool
  stderrOpenFails : Bool
  stdoutPre : List Nat
  stderrPre : List Nat
  childStdout : List Nat
  childStderr : List Nat
  stdoutExistsAfter : Bool
  stderrExistsAfter : Bool
  stdoutReadFails : Bool
  stderrReadFails : Bool
deriving DecidableEq, Repr

/-- The values `Execute` returns, plus ghost observability fields:
whether OS process creation succeeded and which observer goroutines ran. -/
structure ExecuteResult where
  stdout : Reader
  stderr : Reader
  exitCode : Int
  errs : List ExecErr
  processStarted : Bool
  cancelObserverStarted : Bool
  timeoutObserverStarted : Bool
deriving DecidableEq, Repr

/-- The zero values of `Execute`'s named results, returned by the bare
`return` statements at executers.go:81/98 when sink setup fails: nil
readers, exit code 0, and an EMPTY error list (the local `err` from
`os.OpenFile` is dropped, not appended to `errs`). -/
def zeroExecuteResult : ExecuteResult :=
  { stdout := .nilReader, stderr := .nilReader, exitCode := 0, errs := []
    processStarted := false, cancelObserverStarted := false
    timeoutObserverStarted := false }

/-- One read-back block of `Execute` (executers.go:118-127 for stdout,
129-138 for stderr): if `fileutil.Exists(filePath)` the output file is
opened (`os.Open` failure appends a read-back error and leaves the
reader nil); otherwise the in-memory buffer is wrapped — but the buffer
pointer is non-nil only when no file path was configured
(executers.go:74/86), so `stdoutBuf.Bytes()` at executers.go:126/137
dereferences nil and panics when a file path was given, modelled as
`none`. -/
def readBackReader (filePath : String) (pre written : List Nat)
    (existsAfter readFails stderrStream : Bool) (errs : List ExecErr) :
    Option (Reader × List ExecErr) :=
  if fileutilExists filePath existsAfter then
    if readFails then
      some (.nilReader, errs ++ [.readBack stderrStream])
    else
      some (.fileReader (pre ++ written), errs)
  else if filePath = "" then
    some (.bytesReader written, errs)
  else
    none

/-- `Execute` (executers.go:62-141).  Sets up each sink: a file opened
in create-or-append mode when a path is given (early bare `return` on
open failure), else a fresh in-memory buffer.  Runs `executeCommand`,
appending its error, if any, to `errs`, then builds each reader with
`readBackReader`. -/
def Execute (env : ExecuteEnv) : Option ExecuteResult :=
  if env.stdoutFilePath ≠ "" ∧ env.stdoutOpenFails then
    some zeroExecuteResult
  else if env.stderrFilePath ≠ "" ∧ env.stderrOpenFails then
    some zeroExecuteResult
  else
    let r := executeCommand env.cmd
    let writtenOut := if env.cmd.startFails then [] else env.childStdout
    let writtenErr := if env.cmd.startFails then [] else env.childStderr
    do
      let (stdout, errs1) ← readBackReader env.stdoutFilePath env.stdoutPre
        writtenOut env.stdoutExistsAfter env.stdoutReadFails false r.err.toList
      let (stderr, errs2) ← readBackReader env.stderrFilePath env.stderrPre
        writtenErr env.stderrExistsAfter env.stderrReadFails true errs1
      some { stdout := stdout, stderr := stderr, exitCode := r.exitCode
             errs := errs2, processStarted := !env.cmd.startFails
             cancelObserverStarted := r.cancelObserverStarted
             timeoutObserverStarted := r.timeoutObserverStarted }

/-- Environment of one `StartExe` call. -/
structure StartEnv where
  stdoutFilePath : String
  stderrFilePath : String
  stdoutOpenFails : Bool
  stderrOpenFails : Bool
  startFails : Bool
deriving DecidableEq, Repr

/-- Result of `StartCommand`: the returned `(process, exitCode, err)`,
plus ghost fields recording which writers were bound as the command's
`Stdout`/`Stderr` (a writer is `some path` for an open file handle on
`path`, `none` for the Go nil `*os.File`) and which observers started. -/
structure StartCmdResult where
  processReturned : Bool
  exitCode : Int
  err : Option ExecErr
  boundStdout : Option String
  boundStderr : Option String
  cancelObserverStarted : Bool
  timeoutObserverStarted : Bool
deriving DecidableEq, Repr

/-- `StartCommand` (executers.go:304-339).  Binds the given writers as
the command's standard output and standard error, starts the process
(exit code 1 and the launch error on failure), and on success returns
the process handle with exit code 0, starting only the cancellation
observer (`killProcessOnCancel`, executers.go:336) — no timer and no
timeout observer exist in this function. -/
def StartCommand (stdoutWriter stderrWriter : Option String)
    (startFails : Bool) : StartCmdResult :=
  if startFails then
    { processReturned := false, exitCode := 1, err := some .launch
      boundStdout := stdoutWriter, boundStderr := stderrWriter
      cancelObserverStarted := false, timeoutObserverStarted := false }
  else
    { processReturned := true, exitCode := 0, err := none
      boundStdout := stdoutWriter, boundStderr := stderrWriter
      cancelObserverStarted := true, timeoutObserverStarted := false }

/-- Result of `StartExe`: the returned `(process, exitCode, errs)` with
the same ghost fields as `StartCmdResult`. -/
structure StartExeResult where
  processReturned : Bool
  exitCode : Int
  errs : List ExecErr
  boundStdout : Option String
  boundStderr : Option String
  cancelObserverStarted : Bool
  timeoutObserverStarted : Bool
deriving DecidableEq, Repr

/-- `StartExe` (executers.go:149-194).  Declares
`var stdoutWriter, stderrWriter *os.File` (both nil, executers.go:159).
When a path is given, `stdoutWriter, err := os.OpenFile(...)` at
executers.go:164 (resp. 175) opens the file — but the Go `:=` declares
NEW `stdoutWriter`/`err` locals scoped to the if-block, shadowing the
outer variables; on open failure the bare `return` yields the zero
named results (nil process, exit code 0, empty error list), and on
success the opened handle is only deferred-closed while the OUTER
writers passed to `StartCommand` remain nil.  Hence `StartCommand` is
always called with nil writers here. -/
def StartExe (env : StartEnv) : StartExeResult :=
  let stdoutWriter : Option String := none
  let stderrWriter : Option String := none
  if env.stdoutFilePath ≠ "" ∧ env.stdoutOpenFails then
    { processReturned := false, exitCode := 0, errs := []
      boundStdout := none, boundStderr := none
      cancelObserverStarted := false, timeoutObserverStarted := false }
  else if env.stderrFilePath ≠ "" ∧ env.stderrOpenFails then
    { processReturned := false, exitCode := 0, errs := []
      boundStdout := none, boundStderr := none
      cancelObserverStarted := false, timeoutObserverStarted := false }
  else
    let r := StartCommand stdoutWriter stderrWriter env.startFails
    { processReturned := r.processReturned, exitCode := r.exitCode
      errs := r.err.toList
      boundStdout := r.boundStdout, boundStderr := r.boundStderr
      cancelObserverStarted := r.cancelObserverStarted
      timeoutObserverStarted := r.timeoutObserverStarted }

/-- executers.go:35 -/
def envVarInstanceId : String := "AWS_SSM_INSTANCE_ID"

/-- executers.go:36 -/
def envVarRegionName : String := "AWS_SSM_REGION_NAME"

/-- `fmtEnvVariable` (executers.go:393-395): `fmt.Sprintf("%s=%s", ...)`. -/
def fmtEnvVariable (nm val : String) : String := nm ++ "=" ++ val

/-- `prepareEnvironment` (executers.go:378-390), the environment list
assigned to `command.Env` at executers.go:386: `os.Environ()` plus the
instance-id variable when the identity provider's instance-id lookup
succeeds, plus the region variable when the region lookup succeeds; a
failed lookup contributes nothing.  (The subsequent
`validateEnvironmentVariables` call at executers.go:389 is a separate
OS-specific hook outside this file's scope.) -/
def prepareEnvironment (osEnviron : List String)
    (instanceID : Except Unit String) (region : Except Unit String) :
    List String :=
  let env := osEnviron
  let env :=
    match instanceID with
    | .ok id => env ++ [fmtEnvVariable envVarInstanceId id]
    | .error _ => env
  let env :=
    match region with
    | .ok r => env ++ [fmtEnvVariable envVarRegionName r]
    | .error _ => env
  env

/-- Go's `strings.Join(elems, sep)`: the elements separated by `sep`. -/
def stringsJoin : List String → String → String
  | [], _ => ""
  | [a], _ => a
  | a :: b :: rest, sep => a ++ sep ++ stringsJoin (b :: rest) sep

/-- Environment of one `CreateScriptFile` call. -/
structure ScriptEnv where
  createFails : Bool
  writeFails : Bool
deriving DecidableEq, Repr

/-- Errors of `CreateScriptFile`: `os.Create` failed, or `WriteString`
failed. -/
inductive ScriptErr where
  | create
  | write
deriving DecidableEq, Repr

/-- `CreateScriptFile` (executers.go:197-211): creates the script file
and writes `strings.Join(commands, "\n") + "\n"`; on success the value
is the content written to the file. -/
def CreateScriptFile (env : ScriptEnv) (commands : List String) :
    Except ScriptErr String :=
  if env.createFails then .error .create
  else if env.writeFails then .error .write
  else .ok (stringsJoin commands "\n" ++ "\n")

/-! ## Claims about the exit-code normalization in `ExecuteCommand` -/

/-- C1: for every execution whose wait returns a non-zero OS exit status
normalized to -1, the final exit code is the reserved preemptive-stop
sentinel if the cancellation signal is signaled; otherwise, if the timer
had fired (`timer.Stop` returned false), the same sentinel; otherwise
the raw -1 is returned unchanged. -/
theorem c1_minus_one_resolution (env : CmdEnv) (s : Int)
    (hstart : env.startFails = false)
    (hwait : env.waitErr = some (.exitStatus s))
    (hs : s ≠ 0)
    (hnorm : normalizeInterrupted s env.interrupted = -1) :
    (executeCommand env).exitCode =
      if env.canceled then CommandStoppedPreemptivelyExitCode
      else if env.timedOut then CommandStoppedPreemptivelyExitCode
      else -1 := by
  simp [executeCommand, hstart, hwait, waitErrExitCode, hnorm, resolveMinusOne]

/-- Witness for C1 at a concrete input: status -1, cancel signaled. -/
theorem c1_minus_one_resolution_witness :
    (executeCommand ⟨false, some (.exitStatus (-1)), true, false, false⟩).exitCode
      = CommandStoppedPreemptivelyExitCode := by
  have h := c1_minus_one_resolution
    ⟨false, some (.exitStatus (-1)), true, false, false⟩ (-1)
    rfl rfl (by decide) (by decide)
  simpa using h

/-- C2 counterexample: wait returns status 3, the interrupted flag is
set, and the cancellation signal is signaled.  The claim says the exit
code is "forced to -1 regardless of the raw status", but the code then
substitutes the preemptive-stop sentinel for the forced -1, so the
result is neither -1 nor the raw status. -/
theorem c2_counterexample :
    (executeCommand ⟨false, some (.exitStatus 3), true, false, true⟩).exitCode
        = CommandStoppedPreemptivelyExitCode ∧
    (executeCommand ⟨false, some (.exitStatus 3), true, false, true⟩).exitCode
        ≠ -1 ∧
    (executeCommand ⟨false, some (.exitStatus 3), true, false, true⟩).exitCode
        ≠ 3 := by
  decide

/-- C2 amended: when wait returns an error carrying a non-zero OS exit
status, the status is first forced to -1 if the interrupted flag is set;
a -1 (raw or forced) is then replaced by the preemptive-stop sentinel
when the cancellation signal is set or the timer had fired, and
surfaced as -1 otherwise; any other status is returned verbatim. -/
theorem c2_exit_status_normalization (env : CmdEnv) (s : Int)
    (hstart : env.startFails = false)
    (hwait : env.waitErr = some (.exitStatus s))
    (hs : s ≠ 0) :
    (executeCommand env).exitCode =
      if (if env.interrupted then -1 else s) = -1 then
        (if env.canceled ∨ env.timedOut then CommandStoppedPreemptivelyExitCode
         else -1)
      else s := by
  simp only [executeCommand, hstart, Bool.false_eq_true, if_false, hwait,
    waitErrExitCode, normalizeInterrupted, resolveMinusOne]
  cases hI : env.interrupted <;> cases hC : env.canceled <;>
    cases hT : env.timedOut <;> by_cases hs1 : s = -1 <;>
    simp [hs1]

/-- Witness for C2 (amended) at a concrete input: status 3, no
interrupt, no cancel, no timeout — returned verbatim. -/
theorem c2_exit_status_normalization_witness :
    (executeCommand ⟨false, some (.exitStatus 3), false, false, false⟩).exitCode
      = 3 := by
  have h := c2_exit_status_normalization
    ⟨false, some (.exitStatus 3), false, false, false⟩ 3 rfl rfl (by decide)
  simpa using h

/-- C3: when wait returns no error, the exit code is 0 and no error is
returned, for every state of the cancellation signal and of the timer
(the kill-attempt-failure branch only logs). -/
theorem c3_clean_exit (env : CmdEnv)
    (hstart : env.startFails = false)
    (hwait : env.waitErr = none) :
    (executeCommand env).exitCode = 0 ∧ (executeCommand env).err = none := by
  simp [executeCommand, hstart, hwait]

/-- Witness for C3 at a concrete input: both the cancellation signal and
the timer fired, yet the exit code is 0 and the error set is empty. -/
theorem c3_clean_exit_witness :
    (executeCommand ⟨false, none, true, true, false⟩).exitCode = 0 ∧
    (executeCommand ⟨false, none, true, true, false⟩).err = none :=
  c3_clean_exit ⟨false, none, true, true, false⟩ rfl rfl

/-- C4: a wait error carrying an OS exit status other than -1, with the
interrupted flag not set, is returned verbatim, irrespective of the
cancellation signal and of the timer. -/
theorem c4_verbatim_status (env : CmdEnv) (s : Int)
    (hstart : env.startFails = false)
    (hwait : env.waitErr = some (.exitStatus s))
    (hs : s ≠ -1)
    (hint : env.interrupted = false) :
    (executeCommand env).exitCode = s := by
  simp [executeCommand, hstart, hwait, waitErrExitCode, normalizeInterrupted,
    hint, resolveMinusOne, hs]

/-- Witness for C4 at a concrete input: status 3 with both cancellation
and timeout fired is still returned verbatim. -/
theorem c4_verbatim_status_witness :
    (executeCommand ⟨false, some (.exitStatus 3), true, true, false⟩).exitCode
      = 3 :=
  c4_verbatim_status ⟨false, some (.exitStatus 3), true, true, false⟩ 3
    rfl rfl (by decide) rfl

/-! ## Claims about `Execute` -/

/-- Shape of any successful read-back: the reader is the buffer reader
over the written bytes, the file reader over the pre-existing plus
written bytes, or nil; the error list is unchanged or gains exactly one
read-back error. -/
theorem readBackReader_shape (p : String) (pre w : List Nat)
    (ex rf b : Bool) (errs errs2 : List ExecErr) (rd : Reader)
    (h : readBackReader p pre w ex rf b errs = some (rd, errs2)) :
    (rd = .bytesReader w ∨ rd = .fileReader (pre ++ w) ∨ rd = .nilReader) ∧
    (errs2 = errs ∨ errs2 = errs ++ [.readBack b]) := by
  unfold readBackReader at h
  split at h
  · split at h <;> (cases h; simp)
  · split at h
    · cases h; simp
    · exact Option.noConfusion h

/-- Decomposition of a normally-returning `Execute` call whose sink
setup succeeded: both read-backs returned, and the result is assembled
from them and from `executeCommand`. -/
theorem Execute_some_shape (env : ExecuteEnv) (res : ExecuteResult)
    (hso : env.stdoutOpenFails = false)
    (hse : env.stderrOpenFails = false)
    (hrun : Execute env = some res) :
    ∃ rd1 errs1 rd2 errs2,
      readBackReader env.stdoutFilePath env.stdoutPre
        (if env.cmd.startFails then [] else env.childStdout)
        env.stdoutExistsAfter env.stdoutReadFails false
        (executeCommand env.cmd).err.toList = some (rd1, errs1) ∧
      readBackReader env.stderrFilePath env.stderrPre
        (if env.cmd.startFails then [] else env.childStderr)
        env.stderrExistsAfter env.stderrReadFails true errs1
          = some (rd2, errs2) ∧
      res = { stdout := rd1, stderr := rd2
              exitCode := (executeCommand env.cmd).exitCode, errs := errs2
              processStarted := !env.cmd.startFails
              cancelObserverStarted :=
                (executeCommand env.cmd).cancelObserverStarted
              timeoutObserverStarted :=
                (executeCommand env.cmd).timeoutObserverStarted } := by
  simp only [Execute, hso, hse, Bool.false_eq_true, and_false, if_false,
    Option.bind_eq_bind, Option.bind_eq_some] at hrun
  obtain ⟨⟨rd1, errs1⟩, h1, hrun⟩ := hrun
  obtain ⟨⟨rd2, errs2⟩, h2, hrun⟩ := hrun
  exact ⟨rd1, errs1, rd2, errs2, h1, h2, (Option.some.inj hrun).symm⟩

/-- C5 counterexample: launch fails with a stdout file configured whose
pre-existing content is the byte 104.  The file was created/opened in
append mode, so it still exists and the read-back returns its
pre-existing byte — the stdout reader does not return zero bytes. -/
theorem c5_counterexample :
    ((Execute ⟨⟨true, none, false, false, false⟩, "log", "", false, false,
        [104], [], [], [], true, false, false, false⟩).map
      fun r => r.stdout) = some (Reader.fileReader [104]) := by
  decide

/-- C5 amended: when OS process creation fails (and sink setup
succeeded), `ExecuteCommand` returns exit code 1 with the launch error
and starts no observer; `Execute` returns exit code 1 with the launch
error in the error set, and each reader holds no bytes from this
execution — the empty buffer when in-memory, or only the file's
pre-existing content (or nil on read-back failure). -/
theorem c5_launch_failure (env : ExecuteEnv) (res : ExecuteResult)
    (hso : env.stdoutOpenFails = false)
    (hse : env.stderrOpenFails = false)
    (hstart : env.cmd.startFails = true)
    (hrun : Execute env = some res) :
    executeCommand env.cmd =
      { exitCode := 1, err := some ExecErr.launch
        cancelObserverStarted := false, timeoutObserverStarted := false } ∧
    res.exitCode = 1 ∧ ExecErr.launch ∈ res.errs ∧
    res.processStarted = false ∧
    res.cancelObserverStarted = false ∧ res.timeoutObserverStarted = false ∧
    (res.stdout = Reader.bytesReader [] ∨
      res.stdout = Reader.fileReader env.stdoutPre ∨
      res.stdout = Reader.nilReader) ∧
    (res.stderr = Reader.bytesReader [] ∨
      res.stderr = Reader.fileReader env.stderrPre ∨
      res.stderr = Reader.nilReader) := by
  have hcmd : executeCommand env.cmd =
      { exitCode := 1, err := some ExecErr.launch
        cancelObserverStarted := false, timeoutObserverStarted := false } := by
    simp [executeCommand, hstart]
  obtain ⟨rd1, errs1, rd2, errs2, h1, h2, hres⟩ :=
    Execute_some_shape env res hso hse hrun
  rw [hstart, hcmd] at h1
  rw [hstart] at h2
  simp only [if_true] at h1 h2
  have s1 := readBackReader_shape _ _ _ _ _ _ _ _ _ h1
  have s2 := readBackReader_shape _ _ _ _ _ _ _ _ _ h2
  have hmem1 : ExecErr.launch ∈ errs1 := by
    rcases s1.2 with h | h <;> simp [h]
  have hmem2 : ExecErr.launch ∈ errs2 := by
    rcases s2.2 with h | h <;> simp [h, hmem1]
  subst hres
  refine ⟨hcmd, by simp [hcmd], hmem2, by simp [hstart], by simp [hcmd],
    by simp [hcmd], ?_, ?_⟩
  · simpa using s1.1
  · simpa using s2.1

/-- Witness for C5 (amended) at a concrete input: launch failure with
in-memory sinks. -/
theorem c5_launch_failure_witness :
    Execute ⟨⟨true, none, false, false, false⟩, "", "", false, false, [], [],
        [3], [4], false, false, false, false⟩ =
      some ⟨Reader.bytesReader [], Reader.bytesReader [], 1, [ExecErr.launch],
        false, false, false⟩ ∧
    (⟨Reader.bytesReader [], Reader.bytesReader [], 1, [ExecErr.launch],
        false, false, false⟩ : ExecuteResult).exitCode = 1 ∧
    ExecErr.launch ∈ (⟨Reader.bytesReader [], Reader.bytesReader [], 1,
        [ExecErr.launch], false, false, false⟩ : ExecuteResult).errs :=
  ⟨by decide,
    (c5_launch_failure
      ⟨⟨true, none, false, false, false⟩, "", "", false, false, [], [],
        [3], [4], false, false, false, false⟩
      ⟨Reader.bytesReader [], Reader.bytesReader [], 1, [ExecErr.launch],
        false, false, false⟩ rfl rfl rfl (by decide)).2.1,
    (c5_launch_failure
      ⟨⟨true, none, false, false, false⟩, "", "", false, false, [], [],
        [3], [4], false, false, false, false⟩
      ⟨Reader.bytesReader [], Reader.bytesReader [], 1, [ExecErr.launch],
        false, false, false⟩ rfl rfl rfl (by decide)).2.2.1⟩

/-- C6 evaluated at the failing input: a stdout file path is configured
and its open fails.  `Execute` returns the zero-valued named results —
exit code 0, an EMPTY error set (the bare `return` at executers.go:81
drops the `os.OpenFile` error), nil readers — and no process is
launched.  The claim (and spec) say the setup error is included in the
returned error set; the code drops it. -/
theorem c6_setup_error_dropped :
    Execute ⟨⟨false, none, false, false, false⟩, "out", "", true, false, [],
        [], [], [], false, false, false, false⟩ = some zeroExecuteResult ∧
    zeroExecuteResult.errs = [] ∧ zeroExecuteResult.exitCode = 0 ∧
    zeroExecuteResult.processStarted = false := by
  decide

/-- C7 counterexample: a stdout file was configured and opened, the
command ran, but the file is missing at read-back time
(`fileutil.Exists` false).  `Execute` then takes the in-memory-buffer
branch and dereferences the nil `stdoutBuf` (executers.go:126) — a
crash, modelled as `none` — instead of appending a non-fatal error and
returning normally. -/
theorem c7_counterexample :
    Execute ⟨⟨false, none, false, false, false⟩, "out", "", false, false, [],
        [], [5], [], false, false, false, false⟩ = none := by
  decide

/-- C7 amended: when the configured stdout output file exists after
execution but cannot be opened for reading, `Execute` appends a
non-fatal read-back error, returns normally with the exit code
unchanged, leaves the stdout reader nil, and the other stream's
(buffer) reader remains valid. -/
theorem c7_read_back_error (env : ExecuteEnv)
    (hpath : env.stdoutFilePath ≠ "")
    (hso : env.stdoutOpenFails = false)
    (hse : env.stderrOpenFails = false)
    (hex : env.stdoutExistsAfter = true)
    (hread : env.stdoutReadFails = true)
    (hepath : env.stderrFilePath = "") :
    Execute env = some
      { stdout := Reader.nilReader
        stderr := Reader.bytesReader
          (if env.cmd.startFails then [] else env.childStderr)
        exitCode := (executeCommand env.cmd).exitCode
        errs := (executeCommand env.cmd).err.toList ++ [ExecErr.readBack false]
        processStarted := !env.cmd.startFails
        cancelObserverStarted := (executeCommand env.cmd).cancelObserverStarted
        timeoutObserverStarted :=
          (executeCommand env.cmd).timeoutObserverStarted } := by
  simp [Execute, hso, hse, readBackReader, fileutilExists, hpath, hex, hread,
    hepath]

/-- Witness for C7 (amended) at a concrete input: the command succeeds,
the stdout file exists but its read-back open fails; the read-back error
is appended, exit code stays 0, and the stderr buffer reader is valid. -/
theorem c7_read_back_error_witness :
    Execute ⟨⟨false, none, false, false, false⟩, "out", "", false, false, [1],
        [], [2], [3], true, false, true, false⟩ =
      some ⟨Reader.nilReader, Reader.bytesReader [3], 0,
        [ExecErr.readBack false], true, true, true⟩ := by
  have h := c7_read_back_error
    ⟨⟨false, none, false, false, false⟩, "out", "", false, false, [1], [],
      [2], [3], true, false, true, false⟩
    (by decide) rfl rfl rfl rfl rfl
  simpa [executeCommand] using h

/-! ## Claims about `StartExe`, `prepareEnvironment`, `CreateScriptFile` -/

/-- C8 evaluated at the failing input: `StartExe` with stdout file path
"out", whose open succeeds, and a successful launch.  The opened file
is NOT bound as the process's standard output: `stdoutWriter, err :=
os.OpenFile(...)` at executers.go:164 declares a new block-local
`stdoutWriter` shadowing the outer one, so `StartCommand` receives the
outer nil writer.  (The claim's other parts hold: only the cancellation
observer is attached, and the provisional exit code is 0 on a
successful launch, 1 on a launch failure.) -/
theorem c8_writer_not_bound :
    (StartExe ⟨"out", "", false, false, false⟩).boundStdout = none ∧
    (StartExe ⟨"out", "", false, false, false⟩).processReturned = true ∧
    (StartExe ⟨"out", "", false, false, false⟩).exitCode = 0 ∧
    (StartExe ⟨"out", "", false, false, false⟩).cancelObserverStarted
      = true ∧
    (StartExe ⟨"out", "", false, false, false⟩).timeoutObserverStarted
      = false ∧
    (StartExe ⟨"out", "", false, false, true⟩).exitCode = 1 := by
  decide

/-- C9: a failing identity lookup is non-fatal — `prepareEnvironment`
still returns, the ambient environment is passed through (it is a
prefix of the child's environment), and when the instance-id (resp.
region) lookup fails, every entry of the child's environment is either
an ambient entry or the other lookup's variable: the corresponding
variable is omitted. -/
theorem c9_identity_lookup_nonfatal (osEnviron : List String)
    (instanceID region : Except Unit String) :
    (osEnviron <+: prepareEnvironment osEnviron instanceID region) ∧
    ((∃ e, instanceID = Except.error e) →
      ∀ s ∈ prepareEnvironment osEnviron instanceID region,
        s ∈ osEnviron ∨
          ∃ r, region = Except.ok r ∧
            s = fmtEnvVariable envVarRegionName r) ∧
    ((∃ e, region = Except.error e) →
      ∀ s ∈ prepareEnvironment osEnviron instanceID region,
        s ∈ osEnviron ∨
          ∃ i, instanceID = Except.ok i ∧
            s = fmtEnvVariable envVarInstanceId i) := by
  cases instanceID <;> cases region <;>
    simp [prepareEnvironment, List.append_assoc, List.prefix_append]

/-- Witness for C9 at a concrete input: the instance-id lookup fails and
the region lookup succeeds; every child-environment entry is ambient or
the region variable. -/
theorem c9_identity_lookup_nonfatal_witness :
    (∃ e, (Except.error () : Except Unit String) = Except.error e) ∧
    ∀ s ∈ prepareEnvironment ["PATH=/bin"] (Except.error ())
        (Except.ok "us-east-1"),
      s ∈ ["PATH=/bin"] ∨
        ∃ r, (Except.ok "us-east-1" : Except Unit String) = Except.ok r ∧
          s = fmtEnvVariable envVarRegionName r :=
  ⟨⟨(), rfl⟩,
    (c9_identity_lookup_nonfatal ["PATH=/bin"] (Except.error ())
      (Except.ok "us-east-1")).2.1 ⟨(), rfl⟩⟩

/-- `stringsJoin` pulls a left factor out of the head element. -/
theorem stringsJoin_append_cons (x y sep : String) (l : List String) :
    stringsJoin ((x ++ y) :: l) sep = x ++ stringsJoin (y :: l) sep := by
  cases l with
  | nil => rfl
  | cons b rest => simp [stringsJoin, String.append_assoc]

/-- The accumulator of `String.intercalate.go` is the head of a
`stringsJoin`. -/
theorem intercalate_go_eq (sep : String) (l : List String) (acc : String) :
    String.intercalate.go acc sep l = stringsJoin (acc :: l) sep := by
  induction l generalizing acc with
  | nil => rfl
  | cons a as ih =>
      rw [show String.intercalate.go acc sep (a :: as)
            = String.intercalate.go (acc ++ sep ++ a) sep as from rfl]
      rw [ih]
      exact stringsJoin_append_cons (acc ++ sep) a sep as

/-- Go's `strings.Join` agrees with `String.intercalate`. -/
theorem stringsJoin_eq_intercalate (sep : String) (l : List String) :
    stringsJoin l sep = String.intercalate sep l := by
  cases l with
  | nil => rfl
  | cons a as =>
      rw [show String.intercalate sep (a :: as)
            = String.intercalate.go a sep as from rfl]
      rw [intercalate_go_eq]

/-- C10: a successful `CreateScriptFile` writes exactly the commands
joined by newline characters followed by one trailing newline; in
particular the empty command list yields a single newline. -/
theorem c10_script_content (env : ScriptEnv) (commands : List String)
    (hc : env.createFails = false) (hw : env.writeFails = false) :
    CreateScriptFile env commands =
      Except.ok (String.intercalate "\n" commands ++ "\n") ∧
    (commands = [] → CreateScriptFile env commands = Except.ok "\n") := by
  constructor
  · simp [CreateScriptFile, hc, hw, stringsJoin_eq_intercalate]
  · rintro rfl
    simp [CreateScriptFile, hc, hw, stringsJoin]

/-- Witness for C10 at the empty command list: the file content is a
single newline. -/
theorem c10_script_content_witness :
    CreateScriptFile ⟨false, false⟩ [] = Except.ok "\n" :=
  (c10_script_content ⟨false, false⟩ [] rfl rfl).2 rfl

end Executers
